import Mathlib

/-!
Verification development for the modular paper-processing pipeline.

This file shallowly embeds the parts of the code base that the checked
properties speak about: the job rows and queries (src/api/services/jobs/queue.py,
src/api/models/job.py), the extract queries (src/api/db/queries/extracts.py),
the coordination layer (src/api/services/link/queue.py), the handler registry
(src/api/services/jobs/handlers.py), the worker dispatch (src/api/worker.py),
the linking engine (src/api/services/link/handler.py and
src/api/services/link/claim2claim_pairwise.py) and the parse handler
(src/api/services/parse/handler.py).

Modelling conventions:
- IDs are Strings, timestamps are Nats ordered like the ISO timestamps the
  code compares (both the database comparisons and the lexicographic string
  comparison in get_unlinked_claims_for_library are order-isomorphic to time
  for well-formed timestamps of one format).
- The schemaless job payload map is modelled as a structure of optional
  fields covering every key the embedded code reads; a row whose payload is
  NULL behaves, for every read the code performs, like the empty map that
  the expression payload = job.get("payload") or {} produces, so payloads
  are stored total.
- numpy cosine similarity over float embeddings is abstracted as an opaque
  integer-scaled score oracle (claim id to claim id to Int); the float
  threshold 0.35 of the source becomes the scaled constant 35. No checked
  property depends on the numeric kernel, only on the comparison against
  the threshold.
- LLM calls are oracles supplied in the environment; a per-call exception is
  the oracle returning none.
- Raising an uncaught exception is modelled by an Option-valued function
  returning none. In particular, reading an attribute a class does not
  define raises AttributeError: JobType attribute access is modelled by
  job_type_attr, and every function whose source evaluates
  JobType.LINK_LIBRARY (a member the enum does not define) is Option-valued
  and propagates the none of that failed access, exactly where the source
  raises.
-/

namespace Modular

/-- JobStatus from src/api/models/job.py: pending, running, completed, failed. -/
inductive JobStatus where
  | pending
  | running
  | completed
  | failed
deriving DecidableEq, Repr

/-- Values of the JobType enum in src/api/models/job.py. The enum defines
only PARSE_PAPER = "parse_paper", EXTRACT_CLAIMS = "extract_claims" and
EXTRACT_ELEMENTS = "extract_elements"; it has no LINK_LIBRARY member even
though services/link/queue.py and services/jobs/queue.py reference
JobType.LINK_LIBRARY. -/
def job_type_values : List String := ["parse_paper", "extract_claims", "extract_elements"]

/-- The members the JobType enum actually defines
(src/api/models/job.py 16-21): attribute name to string value. There is no
LINK_LIBRARY entry. -/
def job_type_members : List (String × String) :=
  [("PARSE_PAPER", "parse_paper"),
   ("EXTRACT_CLAIMS", "extract_claims"),
   ("EXTRACT_ELEMENTS", "extract_elements")]

/-- Python attribute access JobType.<name>.value: some value when the enum
defines the member, none when the access raises AttributeError. In
particular job_type_attr "LINK_LIBRARY" is none: every source expression
JobType.LINK_LIBRARY raises. -/
def job_type_attr (name : String) : Option String :=
  (job_type_members.find? (fun kv => kv.1 == name)).map (fun kv => kv.2)

/-- The string value the repository evidently intends for the missing
JobType.LINK_LIBRARY member, following the naming convention of the other
members; used only by the clearly-marked *intended* definitions and by
concrete scenario rows. At runtime the source never produces this value:
JobType.LINK_LIBRARY raises AttributeError (see the C2 theorem). -/
def link_library_value : String := "link_library"

/-- Job payload, modelled as a structure of the optional keys the embedded
code reads from the schemaless map. -/
structure Payload where
  paper_id : Option String := none
  library_id : Option String := none
  cutoff : Option Nat := none
  job_id : Option String := none
deriving DecidableEq, Repr

/-- A row of the jobs table (src/api/models/job.py, class Job). The model
mirrors the database schema: note there is no progress column. -/
structure JobRow where
  id : String
  job_type : String
  status : JobStatus
  payload : Payload := {}
  claimed_by : Option String := none
  claimed_at : Option Nat := none
  attempts : Nat := 0
  max_attempts : Nat := 3
  created_at : Nat := 0
  finished_at : Option Nat := none
deriving DecidableEq, Repr

/-- A row of the extracts table. The content bag is represented by the one
field the embedded code reads out of it, content.rephrased_claim. -/
structure ExtractRow where
  id : String
  paper_id : String
  job_id : Option String := none
  extract_type : String
  created_at : Nat := 0
  rephrased_claim : String := ""
deriving DecidableEq, Repr

/-- A row of the library_papers join table. -/
structure LibraryPaperRow where
  library_id : String
  paper_id : String
  added_at : Option Nat := none
deriving DecidableEq, Repr

/-- A row of the extract_vectors table. The embedding payload is carried but
never interpreted (similarity is an oracle, see the module docstring). -/
structure VectorRow where
  extract_id : String
  embedding : List Int := []
deriving DecidableEq, Repr

/-- A row of the papers table (the fields handle_parse_paper reads). -/
structure PaperRow where
  id : String
  filename : String := ""
  storage_path : String := ""
  parsed_path : Option String := none
deriving DecidableEq, Repr

/-- The database state the embedded queries read. -/
structure DbState where
  jobs : List JobRow := []
  library_papers : List LibraryPaperRow := []
  extracts : List ExtractRow := []
  vectors : List VectorRow := []
  papers : List PaperRow := []
  libraries : List String := []
deriving DecidableEq, Repr

/-- ORDER BY created_at DESC over extracts, as a stable sort. Ties on
created_at keep table order (the source leaves tie-breaking to the
database; the spec notes it is unspecified). -/
def order_by_created_at_desc (l : List ExtractRow) : List ExtractRow :=
  List.insertionSort (fun a b => b.created_at ≤ a.created_at) l

/-- ExtractQueries.get_all_extracts_by_library output shape. -/
structure ExtractsByType where
  claims : List ExtractRow
  observations : List ExtractRow
  methods : List ExtractRow
deriving DecidableEq, Repr

/-- ExtractQueries.get_all_extracts_by_library (src/api/db/queries/extracts.py):
fetch all extracts of the library's papers ordered created_at desc, record
the first-seen job_id per (paper_id, type), and keep only extracts sharing
that job_id, grouped by type. -/
def get_all_extracts_by_library (s : DbState) (library_id : String) : ExtractsByType :=
  let paper_ids := (s.library_papers.filter (fun lp => lp.library_id == library_id)).map
    (fun lp => lp.paper_id)
  if paper_ids.isEmpty then ⟨[], [], []⟩
  else
    let rows := order_by_created_at_desc (s.extracts.filter (fun e => paper_ids.contains e.paper_id))
    let latest_job := fun (pid t : String) =>
      (rows.find? (fun e => e.paper_id == pid && e.extract_type == t)).map (fun e => e.job_id)
    let keep := rows.filter (fun e => latest_job e.paper_id e.extract_type == some e.job_id)
    ⟨keep.filter (fun e => e.extract_type == "claim"),
     keep.filter (fun e => e.extract_type == "observation"),
     keep.filter (fun e => e.extract_type == "method")⟩

/-- ExtractQueries.get_latest_by_paper: extracts of one (paper, type) pair
from the most recent extraction job (job_id of the created_at-desc head). -/
def get_latest_by_paper (s : DbState) (paper_id : String) (extract_type : String) :
    List ExtractRow :=
  let rows := order_by_created_at_desc
    (s.extracts.filter (fun e => e.paper_id == paper_id && e.extract_type == extract_type))
  match rows.head? with
  | none => []
  | some first => rows.filter (fun e => e.job_id == first.job_id)

/-- ExtractQueries.get_claims_by_library. -/
def get_claims_by_library (s : DbState) (library_id : String) : List ExtractRow :=
  (get_all_extracts_by_library s library_id).claims

/-- ExtractQueries.get_observations_by_library. -/
def get_observations_by_library (s : DbState) (library_id : String) : List ExtractRow :=
  (get_all_extracts_by_library s library_id).observations

/-- ExtractQueries.get_unlinked_claims_for_library: claims new to the
library. With no cutoff, all (latest) claims; with a cutoff, for each
library paper the latest claims whose created_at is after the cutoff or
whose paper's added_at is after the cutoff. The source materialises the
rows into a paper_id to added_at dict and loops over its keys; since
(library_id, paper_id) is the table's primary key the dict is exactly the
row list, modelled as a direct loop over the rows. -/
def get_unlinked_claims_for_library (s : DbState) (library_id : String)
    (cutoff : Option Nat) : List ExtractRow :=
  let lps := s.library_papers.filter (fun lp => lp.library_id == library_id)
  if lps.isEmpty then []
  else
    match cutoff with
    | none => get_claims_by_library s library_id
    | some c =>
      lps.flatMap (fun lp =>
        (get_latest_by_paper s lp.paper_id "claim").filter (fun cl =>
          decide (c < cl.created_at) ||
            match lp.added_at with
            | some a => decide (c < a)
            | none => false))

/-- JobQueue.has_pending_processing_jobs_for_library
(src/api/services/jobs/queue.py): any pending or running PARSE_PAPER or
EXTRACT_ELEMENTS job whose payload paper_id is one of the library's papers,
optionally excluding one job id. -/
def has_pending_processing_jobs_for_library (s : DbState) (library_id : String)
    (exclude_job_id : Option String) : Bool :=
  let paper_ids := (s.library_papers.filter (fun lp => lp.library_id == library_id)).map
    (fun lp => lp.paper_id)
  if paper_ids.isEmpty then false
  else
    paper_ids.any (fun pid =>
      s.jobs.any (fun j =>
        (j.job_type == "parse_paper" || j.job_type == "extract_elements") &&
        (j.status == JobStatus.pending || j.status == JobStatus.running) &&
        j.payload.paper_id == some pid &&
        (match exclude_job_id with
         | some e => j.id != e
         | none => true)))

/-- JobQueue.has_recent_pending_link_job: a pending LINK_LIBRARY job for the
library created within the last minutes-wide window (default 3 minutes).
The source's filter value is JobType.LINK_LIBRARY.value, an attribute the
enum does not define, so every call raises AttributeError before querying:
none. The some branch is the query the body writes, for the member value
the access would yield. -/
def has_recent_pending_link_job (s : DbState) (now : Nat) (library_id : String)
    (minutes : Nat) : Option Bool :=
  match job_type_attr "LINK_LIBRARY" with
  | none => none
  | some v =>
    let window_start := now - minutes * 60
    some (s.jobs.any (fun j =>
      j.job_type == v &&
      j.status == JobStatus.pending &&
      j.payload.library_id == some library_id &&
      decide (window_start ≤ j.created_at)))

/-- Comparison placing a row before another under ORDER BY claimed_at DESC
(PostgREST/Postgres places NULLs first on a descending order). -/
def claimed_at_desc_first (a b : Option Nat) : Bool :=
  match a, b with
  | none, _ => true
  | some _, none => false
  | some x, some y => decide (y ≤ x)

/-- The query body of JobQueue.get_previous_link_job_claimed_at, for a given
link-job-type value: claimed_at of the first row under ORDER BY claimed_at
DESC among completed or running jobs of that type for the library; none
when no row matches or that claimed_at is NULL. Among ties the selected row
is arbitrary but its claimed_at value is determined. -/
def previous_link_job_claimed_at_query (s : DbState) (library_id : String)
    (v : String) : Option Nat :=
  let matching := s.jobs.filter (fun j =>
    j.job_type == v &&
    (j.status == JobStatus.completed || j.status == JobStatus.running) &&
    j.payload.library_id == some library_id)
  match matching with
  | [] => none
  | j :: rest =>
    (rest.foldl
      (fun best cand =>
        if claimed_at_desc_first best.claimed_at cand.claimed_at then best else cand)
      j).claimed_at

/-- JobQueue.get_previous_link_job_claimed_at. Like
has_recent_pending_link_job, the body evaluates JobType.LINK_LIBRARY.value,
so every call raises AttributeError (outer none) before running the query
in previous_link_job_claimed_at_query. -/
def get_previous_link_job_claimed_at (s : DbState) (library_id : String) :
    Option (Option Nat) :=
  match job_type_attr "LINK_LIBRARY" with
  | none => none
  | some v => some (previous_link_job_claimed_at_query s library_id v)

/-- JobQueue.has_unlinked_extracts_for_library: with no previous link job,
the library must have at least one (latest) claim and one (latest)
observation; otherwise at least one unlinked claim under the previous job's
claimed_at cutoff. The first step calls get_previous_link_job_claimed_at,
whose AttributeError (none) propagates: in the source every call raises
before the rule is computed. -/
def has_unlinked_extracts_for_library (s : DbState) (library_id : String) :
    Option Bool :=
  match get_previous_link_job_claimed_at s library_id with
  | none => none
  | some last_link_at =>
    match last_link_at with
    | none =>
      let ex := get_all_extracts_by_library s library_id
      some (decide (0 < ex.claims.length) && decide (0 < ex.observations.length))
    | some t =>
      some (decide (0 < (get_unlinked_claims_for_library s library_id (some t)).length))

/-- The body of has_unlinked_extracts_for_library as written, read past the
AttributeError of the missing enum member (JobType.LINK_LIBRARY taken as
its evidently intended value link_library): the detection rule the code
spells out but never reaches. -/
def has_unlinked_extracts_for_library_intended (s : DbState) (library_id : String) :
    Bool :=
  match previous_link_job_claimed_at_query s library_id link_library_value with
  | none =>
    let ex := get_all_extracts_by_library s library_id
    decide (0 < ex.claims.length) && decide (0 < ex.observations.length)
  | some t =>
    decide (0 < (get_unlinked_claims_for_library s library_id (some t)).length)

/-- JobQueue.should_queue_link_library: the three coordination tests in
order; used only by the library GET route's auto-trigger. When test 1
passes (jobs are processing) the source returns False; otherwise test 2
raises AttributeError (none), and test 3 would as well. -/
def should_queue_link_library (s : DbState) (now : Nat) (library_id : String) :
    Option Bool :=
  if has_pending_processing_jobs_for_library s library_id none then some false
  else
    (has_recent_pending_link_job s now library_id 3).bind (fun recent =>
      if recent then some false
      else has_unlinked_extracts_for_library s library_id)

/-- A job the coordination layer creates (JobQueue.create_job_by_type with a
LINK_LIBRARY payload of {library_id, cutoff}). -/
structure CreatedJob where
  job_type : String
  library_id : String
  cutoff : Option Nat
deriving DecidableEq, Repr

/-- LibraryQueries.get_libraries_for_paper (src/api/db/queries/libraries.py):
the libraries containing a paper, via library_papers rows whose embedded
library row exists. -/
def get_libraries_for_paper (s : DbState) (paper_id : String) : List String :=
  (s.library_papers.filter (fun lp =>
    lp.paper_id == paper_id && s.libraries.contains lp.library_id)).map
    (fun lp => lp.library_id)

/-- maybe_queue_link_library_for_library (src/api/services/link/queue.py):
skip (return None) when papers of the library are still processing;
otherwise the recent-pending-link check raises AttributeError (none), as
would the cutoff query and the create_job_by_type(JobType.LINK_LIBRARY, ..)
enqueue after it. The unlinked-extracts test is not consulted here. The
outer none is the raise; some none is a completed call that created no
job; some (some job) would be a completed call that enqueued. -/
def maybe_queue_link_library_for_library (s : DbState) (now : Nat)
    (library_id : String) : Option (Option CreatedJob) :=
  if has_pending_processing_jobs_for_library s library_id none then some none
  else
    (has_recent_pending_link_job s now library_id 3).bind (fun recent =>
      if recent then some none
      else
        (get_previous_link_job_claimed_at s library_id).bind (fun cutoff =>
          (job_type_attr "LINK_LIBRARY").map (fun v => some ⟨v, library_id, cutoff⟩)))

/-- maybe_queue_link_library (src/api/services/link/queue.py): the per-paper
trigger. For each library containing the paper, the same two checks as
above, then enqueue; the first library that gets past check 1 makes check 2
raise AttributeError (none), aborting the loop. Its only parameter is
paper_id: it neither accepts nor forwards an exclude_job_id, so the
processing-jobs check always runs with no exclusion. The outer none is the
raise; some js is a completed call with its created jobs. -/
def maybe_queue_link_library (s : DbState) (now : Nat) (paper_id : String) :
    Option (List CreatedJob) :=
  let libraries := get_libraries_for_paper s paper_id
  if libraries.isEmpty then some []
  else
    libraries.foldl
      (fun acc library_id =>
        acc.bind (fun created_jobs =>
          if has_pending_processing_jobs_for_library s library_id none then
            some created_jobs
          else
            (has_recent_pending_link_job s now library_id 3).bind (fun recent =>
              if recent then some created_jobs
              else
                (get_previous_link_job_claimed_at s library_id).bind (fun cutoff =>
                  (job_type_attr "LINK_LIBRARY").map (fun v =>
                    created_jobs ++ [⟨v, library_id, cutoff⟩])))))
      (some [])

/-- The handler registrations JobHandlers._register_default_handlers performs
(src/api/services/jobs/handlers.py): job type value to handler name. -/
def registered_handlers : List (String × String) :=
  [("parse_paper", "handle_parse_paper"),
   ("extract_claims", "_handle_extract_claims"),
   ("extract_elements", "handle_extract_elements")]

/-- JobHandlers.get: look a job type value up in the registry. -/
def handlers_get (job_type : String) : Option String :=
  (registered_handlers.find? (fun kv => kv.1 == job_type)).map (fun kv => kv.2)

/-- Outcome of the worker dispatching one claimed job row by its job_type
string (Worker._process_job in src/api/worker.py). -/
inductive DispatchResult where
  | invalidJobType
  | noHandler
  | handler (name : String)
deriving DecidableEq, Repr

/-- Worker._process_job converts the claimed row's job_type string with
JobType(job_type) - a ValueError for a string outside the enum's values -
and then JobHandlers.process raises ValueError when no handler is
registered for the kind. -/
def dispatch_job_type (raw : String) : DispatchResult :=
  if job_type_values.contains raw then
    match handlers_get raw with
    | some h => DispatchResult.handler h
    | none => DispatchResult.noHandler
  else DispatchResult.invalidJobType

/-- The payload Worker._process_job hands to the handler: the claimed row's
payload, unchanged (payload = job.get("payload") or {}; the worker adds
nothing to it before self.handlers.process(JobType(job_type), payload)). -/
def worker_dispatched_payload (job : JobRow) : Payload :=
  job.payload

/-- The payload PaperStorage.upload_paper enqueues for PARSE_PAPER
(src/api/services/papers/storage.py): only the paper_id key. -/
def parse_paper_payload (paper_id : String) : Payload :=
  { paper_id := some paper_id }

/-- The payload the coordination layer enqueues for LINK_LIBRARY
(src/api/services/link/queue.py): library_id and cutoff only. -/
def link_library_payload (library_id : String) (cutoff : Option Nat) : Payload :=
  { library_id := some library_id, cutoff := cutoff }

/-- The duplicate-run check at the top of handle_extract_elements
(src/api/services/extract/handler.py): true (skip the run) when the payload
carries a job_id some of whose extracts already exist; with no job_id in
the payload the check is skipped entirely. -/
def extract_elements_duplicate_check (s : DbState) (payload : Payload) : Bool :=
  match payload.job_id with
  | some jid => !(s.extracts.filter (fun e => e.job_id == some jid)).isEmpty
  | none => false

/-- The formal parameter names of maybe_queue_link_library as defined in
src/api/services/link/queue.py. -/
def maybe_queue_link_library_param_names : List String := ["paper_id"]

/-- The argument names handle_extract_elements passes in its call
maybe_queue_link_library(paper_id, exclude_job_id=job_id)
(src/api/services/extract/handler.py line 182). -/
def extract_handler_link_call_arg_names : List String := ["paper_id", "exclude_job_id"]

/-- Python call semantics: a call raises TypeError when it passes a keyword
argument the callee's signature does not accept. -/
def call_raises_type_error (param_names arg_names : List String) : Bool :=
  arg_names.any (fun a => !(param_names.contains a))

/-- Oracles for the external collaborators of handle_parse_paper: the
Grobid TEI (after add_element_ids), the figure screenshots count, and the
metadata extractor's title and reference count, per paper. -/
structure ParseOracles where
  tei : String → String
  figure_count : String → Nat
  meta_title : String → Option String
  reference_count : String → Nat

/-- Result of a successful handle_parse_paper run: the returned map plus
the follow-up jobs the handler enqueues. -/
structure ParsePaperResult where
  paper_id : String
  parsed_path : String
  tei_size : Nat
  figures_extracted : Nat
  title : Option String
  references_count : Nat
  enqueued_jobs : List CreatedJob
deriving DecidableEq, Repr

/-- handle_parse_paper (src/api/services/parse/handler.py): look the paper
up (ValueError when absent, modelled as none), produce and store the TEI at
paper_id/parsed.tei, update the paper record, and return the result map.
The step that would enqueue the follow-up extraction job (step 9 in the
source) is commented out behind a TODO, so enqueued_jobs is empty. -/
def handle_parse_paper (s : DbState) (g : ParseOracles) (payload : Payload) :
    Option ParsePaperResult :=
  match payload.paper_id with
  | none => none
  | some paper_id =>
    match s.papers.find? (fun p => p.id == paper_id) with
    | none => none
    | some _paper =>
      let tei := g.tei paper_id
      some { paper_id := paper_id,
             parsed_path := paper_id ++ "/parsed.tei",
             tei_size := tei.length,
             figures_extracted := g.figure_count paper_id,
             title := g.meta_title paper_id,
             references_count := g.reference_count paper_id,
             enqueued_jobs := [] }

/-- Hexadecimal digit per the character class [0-9a-f] with re.IGNORECASE. -/
def is_hex_digit (c : Char) : Bool :=
  (48 ≤ c.toNat && c.toNat ≤ 57) ||
  (97 ≤ c.toNat && c.toNat ≤ 102) ||
  (65 ≤ c.toNat && c.toNat ≤ 70)

/-- The UUID_PATTERN check _is_valid_uuid performs
(src/api/services/link/handler.py): 8-4-4-4-12 hex groups separated by
hyphens, anchored at both ends, case-insensitive. -/
def _is_valid_uuid (value : String) : Bool :=
  let cs := value.toList
  cs.length == 36 &&
  (List.range 36).all (fun i =>
    let c := cs.getD i ' '
    if i == 8 || i == 13 || i == 18 || i == 23 then c == '-' else is_hex_digit c)

/-- ClaimLinkType from src/api/services/link/claim2claim.py. -/
inductive ClaimLinkType where
  | duplicate
  | variant
  | contradiction
  | premise
deriving DecidableEq, Repr

/-- The string value of a ClaimLinkType member. -/
def claim_link_type_value : ClaimLinkType → String
  | ClaimLinkType.duplicate => "duplicate"
  | ClaimLinkType.variant => "variant"
  | ClaimLinkType.contradiction => "contradiction"
  | ClaimLinkType.premise => "premise"

/-- ClaimLink from src/api/services/link/claim2claim.py. -/
structure ClaimLink where
  claim_id_1 : String
  claim_id_2 : String
  link_type : ClaimLinkType
  reasoning : String := ""
deriving DecidableEq, Repr

/-- EvidenceLinkType from src/api/services/link/claim2observation.py. -/
inductive EvidenceLinkType where
  | supports
  | contradicts
  | contextualizes
deriving DecidableEq, Repr

/-- The string value of an EvidenceLinkType member. -/
def evidence_link_type_value : EvidenceLinkType → String
  | EvidenceLinkType.supports => "supports"
  | EvidenceLinkType.contradicts => "contradicts"
  | EvidenceLinkType.contextualizes => "contextualizes"

/-- EvidenceLink from src/api/services/link/claim2observation.py. -/
structure EvidenceLink where
  claim_id : String
  observation_id : String
  link_type : EvidenceLinkType
  reasoning : String := ""
deriving DecidableEq, Repr

/-- A record submitted to ExtractLinkQueries.create_many: from_id, to_id,
the content bag's link_type, link_category and reasoning keys, and the
attached job_id. The store upserts on (from_id, to_id) ignoring
duplicates. -/
structure LinkRecord where
  from_id : String
  to_id : String
  link_type_value : String
  link_category : String
  reasoning : String
  job_id : Option String
deriving DecidableEq, Repr

/-- Validity test _save_c2c_links applies to one entry: both endpoint ids
are well-formed UUIDs and, when a valid set is supplied, both are members. -/
def c2c_entry_valid (valid_claim_ids : Option (List String)) (link : ClaimLink) : Bool :=
  _is_valid_uuid link.claim_id_1 && _is_valid_uuid link.claim_id_2 &&
  (match valid_claim_ids with
   | some vs => vs.contains link.claim_id_1 && vs.contains link.claim_id_2
   | none => true)

/-- The record a valid c2c entry becomes. -/
def c2c_record (job_id : Option String) (link : ClaimLink) : LinkRecord :=
  { from_id := link.claim_id_1,
    to_id := link.claim_id_2,
    link_type_value := claim_link_type_value link.link_type,
    link_category := "claim_to_claim",
    reasoning := link.reasoning,
    job_id := job_id }

/-- _save_c2c_links (src/api/services/link/handler.py): iterate the batch;
drop (with a warning) every entry whose endpoints fail the UUID check or
fall outside the valid claim-id set; submit the remaining records with the
job id attached. No entry makes the function raise. The source returns the
count of stored rows; the model returns the submitted records, which is the
observable write. -/
def _save_c2c_links (links : List ClaimLink) (job_id : Option String)
    (valid_claim_ids : Option (List String)) : List LinkRecord :=
  links.filterMap (fun link =>
    if !(_is_valid_uuid link.claim_id_1) || !(_is_valid_uuid link.claim_id_2) then none
    else if (match valid_claim_ids with
             | some vs => !(vs.contains link.claim_id_1) || !(vs.contains link.claim_id_2)
             | none => false) then none
    else some (c2c_record job_id link))

/-- Validity test _save_c2o_links applies to one entry. -/
def c2o_entry_valid (valid_claim_ids valid_observation_ids : Option (List String))
    (link : EvidenceLink) : Bool :=
  _is_valid_uuid link.claim_id && _is_valid_uuid link.observation_id &&
  (match valid_claim_ids with
   | some vs => vs.contains link.claim_id
   | none => true) &&
  (match valid_observation_ids with
   | some vs => vs.contains link.observation_id
   | none => true)

/-- The record a valid c2o entry becomes. -/
def c2o_record (job_id : Option String) (link : EvidenceLink) : LinkRecord :=
  { from_id := link.claim_id,
    to_id := link.observation_id,
    link_type_value := evidence_link_type_value link.link_type,
    link_category := "claim_to_observation",
    reasoning := link.reasoning,
    job_id := job_id }

/-- _save_c2o_links (src/api/services/link/handler.py): same shape as
_save_c2c_links with the claim id checked against the valid claim set and
the observation id against the valid observation set. -/
def _save_c2o_links (links : List EvidenceLink) (job_id : Option String)
    (valid_claim_ids : Option (List String))
    (valid_observation_ids : Option (List String)) : List LinkRecord :=
  links.filterMap (fun link =>
    if !(_is_valid_uuid link.claim_id) || !(_is_valid_uuid link.observation_id) then none
    else if (match valid_claim_ids with
             | some vs => !(vs.contains link.claim_id)
             | none => false) then none
    else if (match valid_observation_ids with
             | some vs => !(vs.contains link.observation_id)
             | none => false) then none
    else some (c2o_record job_id link))

/-- Code-point comparison of characters, as Python compares strings. -/
def char_lt (a b : Char) : Bool := decide (a.toNat < b.toNat)

/-- Lexicographic strict order on character lists by code point. -/
def chars_lt : List Char → List Char → Bool
  | [], [] => false
  | [], _ :: _ => true
  | _ :: _, [] => false
  | a :: as, b :: bs =>
    if char_lt a b then true
    else if char_lt b a then false
    else chars_lt as bs

/-- Python string less-or-equal by code points, executable in the kernel. -/
def str_le (a b : String) : Bool :=
  a == b || chars_lt a.toList b.toList

/-- The unordered pair key tuple(sorted([id_a, id_b])) used by
build_candidate_pairs to deduplicate candidate pairs. -/
def pair_key (a b : String) : String × String :=
  if str_le a b then (a, b) else (b, a)

/-- CandidatePair from src/api/services/link/claim2claim_pairwise.py; the
similarity score is the abstracted integer-scaled value. -/
structure CandidatePair where
  claim_1_id : String
  claim_1_text : String
  claim_2_id : String
  claim_2_text : String
  similarity : Int
deriving DecidableEq, Repr

/-- One step of the double loop in build_candidate_pairs: skip
self-comparisons, skip scores below the threshold, skip unordered pairs
already seen, otherwise append the pair and record its key. -/
def build_step (sim : String → String → Int) (threshold : Int) (input_claim : ExtractRow)
    (acc : List CandidatePair × List (String × String)) (lib_claim : ExtractRow) :
    List CandidatePair × List (String × String) :=
  let (pairs, seen) := acc
  if input_claim.id == lib_claim.id then acc
  else if sim input_claim.id lib_claim.id < threshold then acc
  else
    let key := pair_key input_claim.id lib_claim.id
    if seen.contains key then acc
    else
      (pairs ++
        [⟨input_claim.id, input_claim.rephrased_claim,
          lib_claim.id, lib_claim.rephrased_claim,
          sim input_claim.id lib_claim.id⟩],
       key :: seen)

/-- build_candidate_pairs (src/api/services/link/claim2claim_pairwise.py):
all (input claim, library claim) pairs at or above the similarity
threshold, deduplicated by the unordered id pair, in loop order. -/
def build_candidate_pairs (sim : String → String → Int) (threshold : Int)
    (input_claims library_claims : List ExtractRow) : List CandidatePair :=
  if input_claims.isEmpty || library_claims.isEmpty then []
  else
    (input_claims.foldl
      (fun acc input_claim => library_claims.foldl (build_step sim threshold input_claim) acc)
      ([], [])).1

/-- PairwiseLinkType from src/api/services/link/claim2claim_pairwise.py.
The source member called none is named nolink here. -/
inductive PairwiseLinkType where
  | nolink
  | duplicate
  | variant
  | contradiction
  | premise_1_to_2
  | premise_2_to_1
deriving DecidableEq, Repr

/-- PairwiseLinkResult: the label and reasoning one LLM pair call returns. -/
structure PairwiseLinkResult where
  link_type : PairwiseLinkType
  reasoning : String := ""
deriving DecidableEq, Repr

/-- _process_pair (src/api/services/link/claim2claim_pairwise.py): the
oracle argument is the LLM call's outcome, none modelling a per-call
exception (logged and treated as no link). A nolink label yields nothing;
premise labels orient the premise first; the symmetric labels duplicate,
variant and contradiction keep the pair's generated orientation. -/
def _process_pair (oracle_result : Option PairwiseLinkResult) (pair : CandidatePair) :
    Option ClaimLink :=
  match oracle_result with
  | none => none
  | some r =>
    match r.link_type with
    | PairwiseLinkType.nolink => none
    | PairwiseLinkType.premise_1_to_2 =>
      some ⟨pair.claim_1_id, pair.claim_2_id, ClaimLinkType.premise, r.reasoning⟩
    | PairwiseLinkType.premise_2_to_1 =>
      some ⟨pair.claim_2_id, pair.claim_1_id, ClaimLinkType.premise, r.reasoning⟩
    | PairwiseLinkType.duplicate =>
      some ⟨pair.claim_1_id, pair.claim_2_id, ClaimLinkType.duplicate, r.reasoning⟩
    | PairwiseLinkType.variant =>
      some ⟨pair.claim_1_id, pair.claim_2_id, ClaimLinkType.variant, r.reasoning⟩
    | PairwiseLinkType.contradiction =>
      some ⟨pair.claim_1_id, pair.claim_2_id, ClaimLinkType.contradiction, r.reasoning⟩

/-- add_embeddings_to_claims (src/api/services/link/claim2claim.py): keep,
in order, the claims for which an extract_vectors row exists (merging the
embedding in); claims without one are dropped with a warning. -/
def add_embeddings_to_claims (s : DbState) (claims : List ExtractRow) : List ExtractRow :=
  if claims.isEmpty then []
  else claims.filter (fun c => s.vectors.any (fun v => v.extract_id == c.id))

/-- _fetch_claims_with_embeddings (src/api/services/link/claim2claim.py):
the library's (latest) claims that have embeddings. -/
def _fetch_claims_with_embeddings (s : DbState) (library_id : String) : List ExtractRow :=
  let claims := get_claims_by_library s library_id
  if claims.isEmpty then [] else add_embeddings_to_claims s claims

/-- LinkingResult from src/api/services/link/claim2claim.py. -/
structure LinkingResult where
  library_id : String
  total_claims : Nat
  groups_processed : Nat
  links : List ClaimLink
deriving DecidableEq, Repr

/-- PairwiseLinkingResult: the result plus, in place of the source's token
usage stats (not modelled), the list of candidate pairs dispatched to the
LLM; its length is the number of pair-classification calls made. -/
structure PairwiseLinkingResult where
  result : LinkingResult
  pairs_dispatched : List CandidatePair
deriving DecidableEq, Repr

/-- The similarity threshold default 0.35, integer-scaled by 100. -/
def similarity_threshold_default : Int := 35

/-- link_claims_pairwise (src/api/services/link/claim2claim_pairwise.py):
return an empty result when the input is empty, when the library has fewer
than two claims with embeddings, or when no candidate pair reaches the
threshold; otherwise dispatch one LLM call per candidate pair and collect
the non-none links. -/
def link_claims_pairwise (s : DbState)
    (pair_oracle : CandidatePair → Option PairwiseLinkResult)
    (sim : String → String → Int) (input_claims : List ExtractRow)
    (library_id : String) (similarity_threshold : Int) : PairwiseLinkingResult :=
  if input_claims.isEmpty then
    ⟨⟨library_id, 0, 0, []⟩, []⟩
  else
    let library_claims := _fetch_claims_with_embeddings s library_id
    if library_claims.length < 2 then
      ⟨⟨library_id, library_claims.length, 0, []⟩, []⟩
    else
      let pairs := build_candidate_pairs sim similarity_threshold input_claims library_claims
      if pairs.isEmpty then
        ⟨⟨library_id, library_claims.length, 0, []⟩, []⟩
      else
        ⟨⟨library_id, library_claims.length, pairs.length,
          pairs.filterMap (fun p => _process_pair (pair_oracle p) p)⟩,
         pairs⟩

/-- EvidenceLinkingResult from src/api/services/link/claim2observation.py.
It has exactly these five fields; in particular it has no result and no
stats attribute. -/
structure EvidenceLinkingResult where
  library_id : String
  total_claims : Nat
  total_observations : Nat
  groups_processed : Nat
  links : List EvidenceLink
deriving DecidableEq, Repr

/-- The environment handle_link_library runs in: the database plus the LLM
oracles. The claim-to-observation engine
(link_observations_to_input_claims, whose internals no checked claim is
about) is abstracted as a function from the input claims to the
EvidenceLinkingResult it returns. -/
structure LinkEnv where
  db : DbState
  sim : String → String → Int
  pair_oracle : CandidatePair → Option PairwiseLinkResult
  c2o_engine : List ExtractRow → EvidenceLinkingResult

/-- The result map a completed handle_link_library run returns. -/
structure LinkLibraryResult where
  library_id : String
  claims_processed : Nat
  c2c_links_found : Nat
  c2c_links_created : Nat
  c2o_links_found : Nat
  c2o_links_created : Nat
  status : String
deriving DecidableEq, Repr

/-- Everything one handle_link_library attempt does: the claim ids Phase B
took as input, the link records written to the store, and the returned
result, none modelling an uncaught exception (the worker then marks the job
failed). -/
structure LinkLibraryOutcome where
  phase_b_input_ids : List String
  c2c_records : List LinkRecord
  c2o_records : List LinkRecord
  result : Option LinkLibraryResult
deriving DecidableEq, Repr

/-- handle_link_library (src/api/services/link/handler.py). Steps: read
library_id (KeyError when absent, modelled as an all-empty failed outcome),
fetch unlinked claims under the payload cutoff, return early when none or
when none has an embedding, load the valid claim and observation id sets,
run pairwise c2c linking and persist its links at once, then run c2o
linking. The source then reads c2o_pairwise_result.result and .stats,
attributes EvidenceLinkingResult does not define, so every run that
reaches the c2o step raises AttributeError after the c2c records were
persisted: result is none and no c2o record is ever written. Note that the
function reads no per-job progress anywhere: the jobs table (and the Job
model) has no progress column and the payload carries none. -/
def handle_link_library (env : LinkEnv) (payload : Payload) : LinkLibraryOutcome :=
  match payload.library_id with
  | none => ⟨[], [], [], none⟩
  | some library_id =>
    let cutoff := payload.cutoff
    let job_id := payload.job_id
    let unlinked_claims := get_unlinked_claims_for_library env.db library_id cutoff
    if unlinked_claims.isEmpty then
      ⟨[], [], [], some ⟨library_id, 0, 0, 0, 0, 0, "complete"⟩⟩
    else
      let claims_with_embeddings := add_embeddings_to_claims env.db unlinked_claims
      if claims_with_embeddings.isEmpty then
        ⟨[], [], [], some ⟨library_id, 0, 0, 0, 0, 0, "complete"⟩⟩
      else
        let all_claims := get_claims_by_library env.db library_id
        let all_observations := get_observations_by_library env.db library_id
        let valid_claim_ids := all_claims.map (fun c => c.id)
        let _valid_observation_ids := all_observations.map (fun o => o.id)
        let c2c := link_claims_pairwise env.db env.pair_oracle env.sim
          claims_with_embeddings library_id similarity_threshold_default
        let c2c_records := _save_c2c_links c2c.result.links job_id (some valid_claim_ids)
        let _c2o := env.c2o_engine claims_with_embeddings
        ⟨claims_with_embeddings.map (fun c => c.id), c2c_records, [], none⟩

/-- The unlinked-detection rule as the specification words it, over the same
database state: with no prior cutoff, at least one claim and at least one
observation (each under the latest-per-paper-and-type filter of the data
model); with a cutoff - the previous link job's claimed_at - at least one
latest claim of a library paper whose created_at is after the cutoff or
whose paper's added_at is after the cutoff. -/
def spec_has_unlinked (s : DbState) (library_id : String) : Prop :=
  match previous_link_job_claimed_at_query s library_id link_library_value with
  | none =>
    (∃ e, e ∈ (get_all_extracts_by_library s library_id).claims) ∧
    (∃ o, o ∈ (get_all_extracts_by_library s library_id).observations)
  | some cutoff =>
    ∃ lp, lp ∈ s.library_papers ∧ lp.library_id = library_id ∧
      ∃ e, e ∈ get_latest_by_paper s lp.paper_id "claim" ∧
        (cutoff < e.created_at ∨ ∃ a, lp.added_at = some a ∧ cutoff < a)

/-- A well-formed claim extract id used across the concrete scenarios. -/
def uuid1 : String := "11111111-1111-1111-1111-111111111111"

/-- A second well-formed claim extract id. -/
def uuid2 : String := "22222222-2222-2222-2222-222222222222"

/-- A well-formed observation extract id. -/
def uuid3 : String := "33333333-3333-3333-3333-333333333333"

/-- A well-formed extract id outside every valid set of the scenarios. -/
def uuid4 : String := "44444444-4444-4444-4444-444444444444"

/-- Scenario for C1: library L1 holds papers p1 and p2, each contributing
one claim with an embedding; there is no job history. -/
def c1_db : DbState :=
  { library_papers := [⟨"L1", "p1", some 0⟩, ⟨"L1", "p2", some 0⟩],
    libraries := ["L1"],
    extracts := [⟨uuid1, "p1", some "ej1", "claim", 5, "claim one"⟩,
                 ⟨uuid2, "p2", some "ej2", "claim", 6, "claim two"⟩],
    vectors := [⟨uuid1, []⟩, ⟨uuid2, []⟩] }

/-- Environment for C1: every candidate pair scores above the threshold
and the pair classifier labels every pair a duplicate. -/
def c1_env : LinkEnv :=
  { db := c1_db,
    sim := fun _ _ => 100,
    pair_oracle := fun _ => some ⟨PairwiseLinkType.duplicate, "same statement"⟩,
    c2o_engine := fun claims => ⟨"L1", claims.length, 0, claims.length, []⟩ }

/-- The same environment after the first attempt failed: the jobs table now
holds the failed prior attempt of the LINK_LIBRARY job, back in pending for
retry. Nothing else in the store changed that the handler reads. -/
def c1_retry_env : LinkEnv :=
  { c1_env with
    db := { c1_db with
      jobs := [{ id := "jobX", job_type := link_library_value,
                 status := JobStatus.pending,
                 payload := { library_id := some "L1" },
                 claimed_by := some "worker-1", claimed_at := some 100,
                 attempts := 1, created_at := 90 }] } }

/-- The LINK_LIBRARY payload of the C1 job: library L1, no cutoff, and the
job's id (as the specification assumes it is injected). -/
def c1_payload : Payload :=
  { library_id := some "L1", job_id := some "jobX" }

/-- Scenario for C3 (and C2): library L3 holds one paper that produced no
extracts at all; no jobs exist. -/
def c3_state : DbState :=
  { library_papers := [⟨"L3", "P3", some 10⟩], libraries := ["L3"] }

/-- Scenario for C5: one uploaded paper. -/
def c5_state : DbState :=
  { papers := [⟨"P5", "f.pdf", "P5/original.pdf", none⟩] }

/-- Oracles for C5: a fixed TEI and empty metadata. -/
def c5_oracles : ParseOracles :=
  { tei := fun _ => "tei",
    figure_count := fun _ => 0,
    meta_title := fun _ => none,
    reference_count := fun _ => 0 }

/-- The result the C5 parse run returns. -/
def c5_out : ParsePaperResult :=
  { paper_id := "P5", parsed_path := "P5/parsed.tei", tei_size := 3,
    figures_extracted := 0, title := none, references_count := 0,
    enqueued_jobs := [] }

/-- Scenario for C6: library L6 holds paper P6, whose EXTRACT_ELEMENTS job
J6 is still running - the very job that, on completion, triggers the
coordination check for P6. -/
def c6_state : DbState :=
  { library_papers := [⟨"L6", "P6", some 0⟩],
    libraries := ["L6"],
    jobs := [{ id := "J6", job_type := "extract_elements",
               status := JobStatus.running,
               payload := { paper_id := some "P6" },
               claimed_by := some "worker-1", claimed_at := some 50,
               attempts := 1, created_at := 40 }] }

/-- Scenario for C10: library LX yields exactly one claim with an
embedding. -/
def c10_db : DbState :=
  { library_papers := [⟨"LX", "pX", some 0⟩],
    libraries := ["LX"],
    extracts := [⟨uuid1, "pX", some "ejX", "claim", 1, "only claim"⟩],
    vectors := [⟨uuid1, []⟩] }

/-- The single embedded claim of the C10 scenario, used as the non-empty
input list. -/
def c10_input : List ExtractRow :=
  [⟨uuid1, "pX", some "ejX", "claim", 1, "only claim"⟩]

/-- The unordered endpoint key of a candidate pair. -/
def cand_key (p : CandidatePair) : String × String :=
  pair_key p.claim_1_id p.claim_2_id

/-- Invariant of the candidate-pair accumulator: every collected pair's
unordered key is recorded in the seen set, and the collected keys are
pairwise distinct. -/
def build_inv (acc : List CandidatePair × List (String × String)) : Prop :=
  (∀ p ∈ acc.1, cand_key p ∈ acc.2) ∧ (acc.1.map cand_key).Nodup

/-- Helper: a filterMap whose function is a guarded some is the map of the
filter. -/
theorem filterMap_eq_map_filter {α β : Type} (f : α → Option β) (p : α → Bool) (g : α → β)
    (hf : ∀ a, f a = if p a then some (g a) else none) :
    ∀ l : List α, l.filterMap f = (l.filter p).map g := by
  intro l
  induction l with
  | nil => rfl
  | cons hd tl ih =>
    rw [List.filterMap_cons, List.filter_cons, hf hd]
    by_cases hp : p hd = true
    · rw [if_pos hp, if_pos hp, List.map_cons, ih]
    · rw [if_neg hp, if_neg hp, ih]

/-- Helper: _save_c2c_links keeps exactly the entries passing
c2c_entry_valid, mapped to their records, in order. -/
theorem save_c2c_links_eq (links : List ClaimLink) (job_id : Option String)
    (valid_claim_ids : Option (List String)) :
    _save_c2c_links links job_id valid_claim_ids =
      (links.filter (c2c_entry_valid valid_claim_ids)).map (c2c_record job_id) := by
  refine filterMap_eq_map_filter _ _ _ ?_ links
  intro a
  unfold c2c_entry_valid
  cases valid_claim_ids with
  | none =>
    by_cases h1 : _is_valid_uuid a.claim_id_1 <;>
      by_cases h2 : _is_valid_uuid a.claim_id_2 <;>
        simp [h1, h2]
  | some vs =>
    by_cases h1 : _is_valid_uuid a.claim_id_1 <;>
      by_cases h2 : _is_valid_uuid a.claim_id_2 <;>
        by_cases h3 : a.claim_id_1 ∈ vs <;>
          by_cases h4 : a.claim_id_2 ∈ vs <;>
            simp [h1, h2, h3, h4]

/-- Helper: _save_c2o_links keeps exactly the entries passing
c2o_entry_valid, mapped to their records, in order. -/
theorem save_c2o_links_eq (links : List EvidenceLink) (job_id : Option String)
    (valid_claim_ids valid_observation_ids : Option (List String)) :
    _save_c2o_links links job_id valid_claim_ids valid_observation_ids =
      (links.filter (c2o_entry_valid valid_claim_ids valid_observation_ids)).map
        (c2o_record job_id) := by
  refine filterMap_eq_map_filter _ _ _ ?_ links
  intro a
  unfold c2o_entry_valid
  cases valid_claim_ids with
  | none =>
    cases valid_observation_ids with
    | none =>
      by_cases h1 : _is_valid_uuid a.claim_id <;>
        by_cases h2 : _is_valid_uuid a.observation_id <;>
          simp [h1, h2]
    | some vo =>
      by_cases h1 : _is_valid_uuid a.claim_id <;>
        by_cases h2 : _is_valid_uuid a.observation_id <;>
          by_cases h4 : a.observation_id ∈ vo <;>
            simp [h1, h2, h4]
  | some vc =>
    cases valid_observation_ids with
    | none =>
      by_cases h1 : _is_valid_uuid a.claim_id <;>
        by_cases h2 : _is_valid_uuid a.observation_id <;>
          by_cases h3 : a.claim_id ∈ vc <;>
            simp [h1, h2, h3]
    | some vo =>
      by_cases h1 : _is_valid_uuid a.claim_id <;>
        by_cases h2 : _is_valid_uuid a.observation_id <;>
          by_cases h3 : a.claim_id ∈ vc <;>
            by_cases h4 : a.observation_id ∈ vo <;>
              simp [h1, h2, h3, h4]

/-- Helper: one step of the per-library loop of maybe_queue_link_library
keeps the accumulator within {raised, completed-with-no-jobs}: the step
either skips the library (check 1), or reaches check 2, which raises. -/
theorem maybe_queue_loop_no_jobs (s : DbState) (now : Nat) (libs : List String) :
    ∀ acc : Option (List CreatedJob),
      (acc = none ∨ acc = some []) →
      (libs.foldl
        (fun acc2 library_id =>
          acc2.bind (fun created_jobs =>
            if has_pending_processing_jobs_for_library s library_id none then
              some created_jobs
            else
              (has_recent_pending_link_job s now library_id 3).bind (fun recent =>
                if recent then some created_jobs
                else
                  (get_previous_link_job_claimed_at s library_id).bind (fun cutoff =>
                    (job_type_attr "LINK_LIBRARY").map (fun v =>
                      created_jobs ++ [⟨v, library_id, cutoff⟩])))))
        acc = none ∨
       libs.foldl
        (fun acc2 library_id =>
          acc2.bind (fun created_jobs =>
            if has_pending_processing_jobs_for_library s library_id none then
              some created_jobs
            else
              (has_recent_pending_link_job s now library_id 3).bind (fun recent =>
                if recent then some created_jobs
                else
                  (get_previous_link_job_claimed_at s library_id).bind (fun cutoff =>
                    (job_type_attr "LINK_LIBRARY").map (fun v =>
                      created_jobs ++ [⟨v, library_id, cutoff⟩])))))
        acc = some []) := by
  induction libs with
  | nil => exact fun acc h => h
  | cons hd tl ih =>
    intro acc h
    rw [List.foldl_cons]
    apply ih
    rcases h with h | h
    · rw [h]
      exact Or.inl rfl
    · rw [h]
      by_cases h1 : has_pending_processing_jobs_for_library s hd none
      · simp [h1]
      · have hrec : has_recent_pending_link_job s now hd 3 = none := rfl
        simp [h1, hrec]

/-- C2. The JobType enum defines no LINK_LIBRARY member - attribute access
JobType.LINK_LIBRARY raises AttributeError for the coordination layer's own
uses - and JobHandlers._register_default_handlers registers no handler for
the kind (only PARSE_PAPER, EXTRACT_CLAIMS and EXTRACT_ELEMENTS):
dispatching a claimed job of kind link_library fails at JobType(job_type)
with ValueError before the registry is even consulted, and the registry
lookup would return nothing - handle_link_library is never invoked. This
contradicts the claim that the registry maps every required kind including
LINK_LIBRARY. -/
theorem c2_link_library_kind_unregistered :
    handlers_get "parse_paper" = some "handle_parse_paper" ∧
    handlers_get "extract_elements" = some "handle_extract_elements" ∧
    handlers_get link_library_value = none ∧
    (link_library_value ∈ job_type_values → False) ∧
    dispatch_job_type link_library_value = DispatchResult.invalidJobType ∧
    job_type_attr "LINK_LIBRARY" = none ∧
    job_type_attr "PARSE_PAPER" = some "parse_paper" ∧
    job_type_attr "EXTRACT_ELEMENTS" = some "extract_elements" := by
  decide

/-- C4. Worker._process_job hands the handler the claimed row's payload
unchanged: no key is injected, so a payload enqueued without a job_id key
(as every enqueue site in the repository does - PaperStorage.upload_paper
and the coordination layer) reaches the handler with job_id absent, and
the duplicate-run check of handle_extract_elements is skipped entirely.
This contradicts the claim that the job's own ID is injected under a
known key. -/
theorem c4_worker_injects_no_job_id :
    (∀ job : JobRow, worker_dispatched_payload job = job.payload) ∧
    (∀ paper_id, (parse_paper_payload paper_id).job_id = none) ∧
    (∀ library_id cutoff, (link_library_payload library_id cutoff).job_id = none) ∧
    (∀ (s : DbState) (paper_id : String),
      extract_elements_duplicate_check s (parse_paper_payload paper_id) = false) := by
  refine ⟨fun _ => rfl, fun _ => rfl, fun _ _ => rfl, fun _ _ => rfl⟩

/-- C5. Every successful handle_parse_paper run returns without enqueueing
any follow-up job: the extraction-job creation is commented out in the
source behind a TODO, contradicting the claim that EXTRACT_ELEMENTS is
enqueued. -/
theorem c5_parse_paper_enqueues_nothing :
    ∀ (s : DbState) (g : ParseOracles) (payload : Payload) (out : ParsePaperResult),
      handle_parse_paper s g payload = some out → out.enqueued_jobs = [] := by
  intro s g payload out h
  unfold handle_parse_paper at h
  split at h
  · exact Option.noConfusion h
  · split at h
    · exact Option.noConfusion h
    · cases h
      rfl

/-- C5 witness: a concrete successful parse run, whose enqueued job list is
empty. -/
theorem c5_parse_paper_enqueues_nothing_witness : c5_out.enqueued_jobs = [] :=
  c5_parse_paper_enqueues_nothing c5_state c5_oracles (parse_paper_payload "P5") c5_out
    (by decide)

/-- C6. handle_extract_elements ends with
maybe_queue_link_library(paper_id, exclude_job_id=job_id), but the
signature of maybe_queue_link_library accepts only paper_id, so the call
raises TypeError instead of completing; moreover the function never
forwards any exclusion to the processing-jobs check, so the caller's own
still-running EXTRACT_ELEMENTS job J6 blocks the enqueue that the exclusion
was meant to allow. This is evaluated at the concrete failing scenario. -/
theorem c6_exclusion_missing_call_fails :
    call_raises_type_error maybe_queue_link_library_param_names
      extract_handler_link_call_arg_names = true ∧
    ("exclude_job_id" ∈ extract_handler_link_call_arg_names) ∧
    maybe_queue_link_library_param_names.contains "exclude_job_id" = false ∧
    has_pending_processing_jobs_for_library c6_state "L6" none = true ∧
    has_pending_processing_jobs_for_library c6_state "L6" (some "J6") = false ∧
    maybe_queue_link_library c6_state 1000 "P6" = some [] := by
  decide

/-- C10. When the library yields fewer than two claims with embeddings,
link_claims_pairwise returns no links and zero pairs processed and
dispatches no LLM pair-classification call, whatever the input claim
list. -/
theorem c10_fewer_than_two_library_claims_no_links :
    ∀ (s : DbState) (pair_oracle : CandidatePair → Option PairwiseLinkResult)
      (sim : String → String → Int) (input_claims : List ExtractRow)
      (library_id : String) (threshold : Int),
      (_fetch_claims_with_embeddings s library_id).length < 2 →
      (link_claims_pairwise s pair_oracle sim input_claims library_id threshold).result.links
          = [] ∧
      (link_claims_pairwise s pair_oracle sim input_claims library_id
          threshold).result.groups_processed = 0 ∧
      (link_claims_pairwise s pair_oracle sim input_claims library_id
          threshold).pairs_dispatched = [] := by
  intro s pair_oracle sim input_claims library_id threshold hlen
  unfold link_claims_pairwise
  by_cases hin : input_claims.isEmpty
  · rw [if_pos hin]
    exact ⟨rfl, rfl, rfl⟩
  · rw [if_neg hin, if_pos hlen]
    exact ⟨rfl, rfl, rfl⟩

/-- C10 witness: library LX has exactly one embedded claim; with that very
claim as non-empty input, the run produces no links, no pairs and no LLM
calls. -/
theorem c10_fewer_than_two_library_claims_no_links_witness :
    (_fetch_claims_with_embeddings c10_db "LX").length < 2 ∧
    (link_claims_pairwise c10_db (fun _ => none) (fun _ _ => 100) c10_input "LX"
        similarity_threshold_default).result.links = [] ∧
    (link_claims_pairwise c10_db (fun _ => none) (fun _ _ => 100) c10_input "LX"
        similarity_threshold_default).result.groups_processed = 0 ∧
    (link_claims_pairwise c10_db (fun _ => none) (fun _ _ => 100) c10_input "LX"
        similarity_threshold_default).pairs_dispatched = [] := by
  refine ⟨by decide, ?_⟩
  exact c10_fewer_than_two_library_claims_no_links c10_db (fun _ => none) (fun _ _ => 100)
    c10_input "LX" similarity_threshold_default (by decide)

/-- C3. The coordination layer never enqueues a LINK_LIBRARY job at all:
whenever a library gets past the nothing-processing test, the
recent-pending-link check raises AttributeError at JobType.LINK_LIBRARY,
and when it does not, the call skips the library - so every completed
invocation of either trigger creates no job, and every invocation that
would have reached the enqueue raises instead. Evaluated concretely at
library L3 (one paper, no jobs, nothing unlinked): the library-level
trigger raises, and should_queue_link_library raises too. The three-test
gate the claim describes does not exist in the code: the sites omit the
unlinked-extracts test and crash inside the debounce test. -/
theorem c3_coordination_never_enqueues :
    (∀ (s : DbState) (now : Nat) (library_id : String),
      (maybe_queue_link_library_for_library s now library_id).getD none = none) ∧
    (∀ (s : DbState) (now : Nat) (paper_id : String),
      (maybe_queue_link_library s now paper_id).getD [] = []) ∧
    has_pending_processing_jobs_for_library c3_state "L3" none = false ∧
    maybe_queue_link_library_for_library c3_state 1000 "L3" = none ∧
    maybe_queue_link_library c3_state 1000 "P3" = none ∧
    should_queue_link_library c3_state 1000 "L3" = none ∧
    has_unlinked_extracts_for_library_intended c3_state "L3" = false := by
  refine ⟨?_, ?_, by decide, by decide, by decide, by decide, by decide⟩
  · intro s now library_id
    unfold maybe_queue_link_library_for_library
    by_cases h1 : has_pending_processing_jobs_for_library s library_id none
    · rw [if_pos h1]
      rfl
    · rw [if_neg h1]
      have hrec : has_recent_pending_link_job s now library_id 3 = none := rfl
      rw [hrec]
      rfl
  · intro s now paper_id
    unfold maybe_queue_link_library
    by_cases hl : (get_libraries_for_paper s paper_id).isEmpty
    · rw [if_pos hl]
      rfl
    · rw [if_neg hl]
      rcases maybe_queue_loop_no_jobs s now (get_libraries_for_paper s paper_id)
        (some []) (Or.inr rfl) with h | h
      · rw [h]
        rfl
      · rw [h]
        rfl

/-- Helper: one step of the candidate-pair loop preserves the accumulator
invariant. -/
theorem build_step_preserves_inv (sim : String → String → Int) (threshold : Int)
    (input_claim lib_claim : ExtractRow) (acc : List CandidatePair × List (String × String))
    (h : build_inv acc) : build_inv (build_step sim threshold input_claim acc lib_claim) := by
  obtain ⟨pairs, seen⟩ := acc
  obtain ⟨h1, h2⟩ := h
  simp only [build_step]
  by_cases hc1 : (input_claim.id == lib_claim.id) = true
  · simp only [if_pos hc1]
    exact ⟨h1, h2⟩
  · simp only [if_neg hc1]
    by_cases hc2 : sim input_claim.id lib_claim.id < threshold
    · simp only [if_pos hc2]
      exact ⟨h1, h2⟩
    · simp only [if_neg hc2]
      by_cases hc3 : seen.contains (pair_key input_claim.id lib_claim.id) = true
      · simp only [if_pos hc3]
        exact ⟨h1, h2⟩
      · simp only [if_neg hc3]
        constructor
        · intro p hp
          rcases List.mem_append.mp hp with hp1 | hp1
          · exact List.mem_cons_of_mem _ (h1 p hp1)
          · rw [List.mem_singleton.mp hp1]
            exact List.mem_cons_self _ _
        · rw [List.map_append, List.nodup_append]
          refine ⟨h2, List.nodup_singleton _, ?_⟩
          intro k hk hk2
          rcases List.mem_map.mp hk with ⟨p, hp, rfl⟩
          have hkey : cand_key p = pair_key input_claim.id lib_claim.id := by
            simpa using hk2
          have hmem := h1 p hp
          rw [hkey] at hmem
          have hcontains : seen.contains (pair_key input_claim.id lib_claim.id) = true :=
            List.elem_iff.mpr hmem
          exact hc3 hcontains

/-- Helper: the inner loop over library claims preserves the accumulator
invariant. -/
theorem build_foldl_inner_preserves_inv (sim : String → String → Int) (threshold : Int)
    (input_claim : ExtractRow) (l : List ExtractRow) :
    ∀ acc, build_inv acc → build_inv (l.foldl (build_step sim threshold input_claim) acc) := by
  induction l with
  | nil => exact fun _ h => h
  | cons hd tl ih =>
    intro acc h
    exact ih _ (build_step_preserves_inv sim threshold input_claim hd acc h)

/-- Helper: the outer loop over input claims preserves the accumulator
invariant. -/
theorem build_foldl_outer_preserves_inv (sim : String → String → Int) (threshold : Int)
    (library_claims : List ExtractRow) (input_claims : List ExtractRow) :
    ∀ acc, build_inv acc →
      build_inv (input_claims.foldl
        (fun acc2 ic => library_claims.foldl (build_step sim threshold ic) acc2) acc) := by
  induction input_claims with
  | nil => exact fun _ h => h
  | cons hd tl ih =>
    intro acc h
    exact ih _ (build_foldl_inner_preserves_inv sim threshold hd library_claims acc h)

/-- C9 counterexample: the pair (claim two, claim one) - the input claim
first - labelled duplicate is persisted as from_id = claim two's id,
to_id = claim one's id, although the sorted order of that unordered pair is
the reverse. The write is not normalized, falsifying the claim that
symmetric links are written with endpoint pair order sorted before
insertion. -/
theorem c9_counterexample_symmetric_link_not_normalized :
    _save_c2c_links
      ((_process_pair (some ⟨PairwiseLinkType.duplicate, "same"⟩)
        ⟨uuid2, "claim two", uuid1, "claim one", 100⟩).toList)
      (some "j9") (some [uuid1, uuid2]) =
      [⟨uuid2, uuid1, "duplicate", "claim_to_claim", "same", some "j9"⟩] ∧
    str_le uuid2 uuid1 = false ∧
    pair_key uuid2 uuid1 = (uuid1, uuid2) := by
  decide

/-- C9 amended: a symmetric label (duplicate, variant, contradiction)
yields a link in the orientation of the candidate pair as generated, and
the saved record preserves that orientation - no endpoint normalization
happens before insertion. Duplicate suppression of symmetric pairs happens
within one run only, at candidate generation, whose output carries
pairwise-distinct unordered endpoint keys. -/
theorem c9_amended_orientation_preserved_dedup_at_generation :
    (∀ (pair : CandidatePair) (r : PairwiseLinkResult),
      (r.link_type = PairwiseLinkType.duplicate ∨ r.link_type = PairwiseLinkType.variant ∨
        r.link_type = PairwiseLinkType.contradiction) →
      (_process_pair (some r) pair).map (fun l => (l.claim_id_1, l.claim_id_2)) =
        some (pair.claim_1_id, pair.claim_2_id)) ∧
    (∀ (job_id : Option String) (l : ClaimLink),
      (c2c_record job_id l).from_id = l.claim_id_1 ∧
      (c2c_record job_id l).to_id = l.claim_id_2) ∧
    (∀ (sim : String → String → Int) (threshold : Int)
      (input_claims library_claims : List ExtractRow),
      ((build_candidate_pairs sim threshold input_claims library_claims).map cand_key).Nodup) := by
  refine ⟨?_, fun _ _ => ⟨rfl, rfl⟩, ?_⟩
  · rintro pair ⟨lt, rs⟩ hsym
    cases lt <;>
      first
      | rfl
      | (exfalso
         rcases hsym with h | h | h <;> exact PairwiseLinkType.noConfusion h)
  · intro sim threshold input_claims library_claims
    unfold build_candidate_pairs
    split
    · exact List.nodup_nil
    · exact (build_foldl_outer_preserves_inv sim threshold library_claims input_claims
        ([], []) ⟨fun p hp => absurd hp (List.not_mem_nil p), List.nodup_nil⟩).2

/-- C9 amended witness: a concrete variant-labelled pair keeps its
generated orientation. -/
theorem c9_amended_witness :
    (_process_pair (some ⟨PairwiseLinkType.variant, "v"⟩)
      ⟨uuid2, "t2", uuid1, "t1", 50⟩).map (fun l => (l.claim_id_1, l.claim_id_2)) =
      some (uuid2, uuid1) :=
  c9_amended_orientation_preserved_dedup_at_generation.1
    ⟨uuid2, "t2", uuid1, "t1", 50⟩ ⟨PairwiseLinkType.variant, "v"⟩ (Or.inr (Or.inl rfl))

/-- C8. In every batch handed to the persistence layer, an entry whose
endpoint ids fail the UUID check or fall outside the valid id sets never
reaches the store (no submitted record carries its endpoint pair), while
every valid entry of the same batch is submitted; the validation never
raises, it only filters. -/
theorem c8_invalid_entries_dropped_valid_persisted :
    ∀ (links : List ClaimLink) (olinks : List EvidenceLink) (job_id : Option String)
      (vc vo : List String),
      (∀ l ∈ links, c2c_entry_valid (some vc) l = false →
        ∀ r ∈ _save_c2c_links links job_id (some vc),
          ¬(r.from_id = l.claim_id_1 ∧ r.to_id = l.claim_id_2)) ∧
      (∀ l ∈ links, c2c_entry_valid (some vc) l = true →
        c2c_record job_id l ∈ _save_c2c_links links job_id (some vc)) ∧
      (∀ l ∈ olinks, c2o_entry_valid (some vc) (some vo) l = false →
        ∀ r ∈ _save_c2o_links olinks job_id (some vc) (some vo),
          ¬(r.from_id = l.claim_id ∧ r.to_id = l.observation_id)) ∧
      (∀ l ∈ olinks, c2o_entry_valid (some vc) (some vo) l = true →
        c2o_record job_id l ∈ _save_c2o_links olinks job_id (some vc) (some vo)) := by
  intro links olinks job_id vc vo
  refine ⟨?_, ?_, ?_, ?_⟩
  · intro l hl hbad r hr hpair
    rw [save_c2c_links_eq] at hr
    rcases List.mem_map.mp hr with ⟨l2, hl2, rfl⟩
    rcases List.mem_filter.mp hl2 with ⟨_, hvalid2⟩
    have hfrom : l2.claim_id_1 = l.claim_id_1 := hpair.1
    have hto : l2.claim_id_2 = l.claim_id_2 := hpair.2
    have hv : c2c_entry_valid (some vc) l = true := by
      unfold c2c_entry_valid at hvalid2 ⊢
      rw [← hfrom, ← hto]
      exact hvalid2
    rw [hv] at hbad
    exact Bool.noConfusion hbad
  · intro l hl hgood
    rw [save_c2c_links_eq]
    exact List.mem_map.mpr ⟨l, List.mem_filter.mpr ⟨hl, hgood⟩, rfl⟩
  · intro l hl hbad r hr hpair
    rw [save_c2o_links_eq] at hr
    rcases List.mem_map.mp hr with ⟨l2, hl2, rfl⟩
    rcases List.mem_filter.mp hl2 with ⟨_, hvalid2⟩
    have hfrom : l2.claim_id = l.claim_id := hpair.1
    have hto : l2.observation_id = l.observation_id := hpair.2
    have hv : c2o_entry_valid (some vc) (some vo) l = true := by
      unfold c2o_entry_valid at hvalid2 ⊢
      rw [← hfrom, ← hto]
      exact hvalid2
    rw [hv] at hbad
    exact Bool.noConfusion hbad
  · intro l hl hgood
    rw [save_c2o_links_eq]
    exact List.mem_map.mpr ⟨l, List.mem_filter.mpr ⟨hl, hgood⟩, rfl⟩

/-- C8 witness: a batch holding one malformed-UUID entry next to a valid
claim pair, and a batch holding one out-of-set observation id next to a
valid evidence pair: each valid entry's record is submitted. -/
theorem c8_invalid_entries_dropped_valid_persisted_witness :
    c2c_record (some "j8") ⟨uuid1, uuid2, ClaimLinkType.variant, "y"⟩ ∈
      _save_c2c_links
        [⟨"not-a-uuid", uuid1, ClaimLinkType.duplicate, "x"⟩,
         ⟨uuid1, uuid2, ClaimLinkType.variant, "y"⟩]
        (some "j8") (some [uuid1, uuid2]) ∧
    c2o_record (some "j8") ⟨uuid1, uuid3, EvidenceLinkType.supports, "z"⟩ ∈
      _save_c2o_links
        [⟨uuid1, uuid4, EvidenceLinkType.supports, "w"⟩,
         ⟨uuid1, uuid3, EvidenceLinkType.supports, "z"⟩]
        (some "j8") (some [uuid1, uuid2]) (some [uuid3]) := by
  have h := c8_invalid_entries_dropped_valid_persisted
    [⟨"not-a-uuid", uuid1, ClaimLinkType.duplicate, "x"⟩,
     ⟨uuid1, uuid2, ClaimLinkType.variant, "y"⟩]
    [⟨uuid1, uuid4, EvidenceLinkType.supports, "w"⟩,
     ⟨uuid1, uuid3, EvidenceLinkType.supports, "z"⟩]
    (some "j8") [uuid1, uuid2] [uuid3]
  exact ⟨h.2.1 _ (by decide) (by decide), h.2.2.2 _ (by decide) (by decide)⟩

/-- C1 counterexample: in the concrete scenario the first attempt of job
jobX persists the c2c link for both input claims and then fails (the c2o
step raises, as every run of this handler does once it reaches it); the
retry of the very same job redoes Phase B for both claims and re-submits
the identical record - completed work is repeated, falsifying the claim
that a retry processes only input claims outside the recorded progress
sets. The second conjunct shows the retry outcome equals the first
attempt's although the jobs table (the only durable job-scoped state)
changed: no prior progress is read from anywhere. -/
theorem c1_counterexample_retry_repeats_completed_work :
    handle_link_library c1_env c1_payload =
      ⟨[uuid2, uuid1],
       [⟨uuid2, uuid1, "duplicate", "claim_to_claim", "same statement", some "jobX"⟩],
       [], none⟩ ∧
    handle_link_library c1_retry_env c1_payload = handle_link_library c1_env c1_payload := by
  constructor
  · decide
  · rfl

/-- C1 amended: handle_link_library reads no per-job progress - its outcome
does not depend on the jobs table at all, and Phase B's input is always the
full list of unlinked claims having embeddings, recomputed from the payload
cutoff alone; re-persisted duplicates on retry are absorbed only by the
store's (from_id, to_id) upsert-ignore. -/
theorem c1_amended_no_progress_read_full_reprocess :
    ∀ (env : LinkEnv) (payload : Payload) (jobs2 : List JobRow) (library_id : String),
      (handle_link_library { env with db := { env.db with jobs := jobs2 } } payload =
        handle_link_library env payload) ∧
      (payload.library_id = some library_id →
        (handle_link_library env payload).phase_b_input_ids =
          (add_embeddings_to_claims env.db
            (get_unlinked_claims_for_library env.db library_id payload.cutoff)).map
            (fun c => c.id)) := by
  intro env payload jobs2 library_id
  constructor
  · rfl
  · intro hlib
    simp only [handle_link_library, hlib]
    by_cases h1 : (get_unlinked_claims_for_library env.db library_id payload.cutoff).isEmpty
    · simp only [if_pos h1]
      rw [List.isEmpty_iff.mp h1]
      simp [add_embeddings_to_claims]
    · simp only [if_neg h1]
      by_cases h2 : (add_embeddings_to_claims env.db
          (get_unlinked_claims_for_library env.db library_id payload.cutoff)).isEmpty
      · simp only [if_pos h2]
        rw [List.isEmpty_iff.mp h2]
        rfl
      · simp only [if_neg h2]

/-- C1 amended witness: in the concrete scenario Phase B's input is exactly
the embedded unlinked claims of the library. -/
theorem c1_amended_witness :
    (handle_link_library c1_env c1_payload).phase_b_input_ids =
      (add_embeddings_to_claims c1_env.db
        (get_unlinked_claims_for_library c1_env.db "L1" c1_payload.cutoff)).map
        (fun c => c.id) :=
  (c1_amended_no_progress_read_full_reprocess c1_env c1_payload [] "L1").2 rfl

/-- C7. Every call of the program's unlinked detection raises
AttributeError before computing anything - has_unlinked_extracts_for_library
starts with get_previous_link_job_claimed_at, which evaluates the missing
JobType.LINK_LIBRARY - so the claimed rule is never executed (first
conjunct). The rule the function bodies spell out, read past that defect
(the *intended* detection), agrees with the claimed rule on every database
state: with no prior LINK_LIBRARY cutoff, unlinked extracts exist iff the
library has at least one latest claim and at least one latest observation;
with a cutoff, iff some latest claim of a library paper has created_at
after the cutoff or its paper's added_at after the cutoff (second
conjunct). The claim describes the intent; the code crashes instead. -/
theorem c7_unlinked_detection_raises_rule_intended :
    (∀ (s : DbState) (library_id : String),
      has_unlinked_extracts_for_library s library_id = none) ∧
    (∀ (s : DbState) (library_id : String),
      has_unlinked_extracts_for_library_intended s library_id = true ↔
        spec_has_unlinked s library_id) := by
  refine ⟨fun s library_id => rfl, ?_⟩
  intro s library_id
  unfold has_unlinked_extracts_for_library_intended spec_has_unlinked
  cases hprev : previous_link_job_claimed_at_query s library_id link_library_value with
  | none =>
    simp [Bool.and_eq_true, decide_eq_true_eq, List.length_pos_iff_exists_mem]
  | some cutoff =>
    rw [decide_eq_true_eq, List.length_pos_iff_exists_mem]
    show (∃ a, a ∈ get_unlinked_claims_for_library s library_id (some cutoff)) ↔
      (∃ lp, lp ∈ s.library_papers ∧ lp.library_id = library_id ∧
        ∃ e, e ∈ get_latest_by_paper s lp.paper_id "claim" ∧
          (cutoff < e.created_at ∨ ∃ a, lp.added_at = some a ∧ cutoff < a))
    constructor
    · rintro ⟨e, he⟩
      simp only [get_unlinked_claims_for_library] at he
      by_cases hlps : (s.library_papers.filter (fun lp => lp.library_id == library_id)).isEmpty
      · rw [if_pos hlps] at he
        exact absurd he (List.not_mem_nil e)
      · rw [if_neg hlps] at he
        rcases List.mem_flatMap.mp he with ⟨lp, hlp, hein⟩
        rcases List.mem_filter.mp hein with ⟨hlatest, hpred⟩
        rcases List.mem_filter.mp hlp with ⟨hlp0, hlib⟩
        refine ⟨lp, hlp0, beq_iff_eq.mp hlib, e, hlatest, ?_⟩
        rcases Bool.or_eq_true_iff.mp hpred with h | h
        · exact Or.inl (of_decide_eq_true h)
        · right
          cases ha : lp.added_at with
          | none =>
            rw [ha] at h
            exact Bool.noConfusion h
          | some a =>
            rw [ha] at h
            exact ⟨a, rfl, of_decide_eq_true h⟩
    · rintro ⟨lp, hlp0, hlib, e, hlatest, hpred⟩
      simp only [get_unlinked_claims_for_library]
      have hlpmem : lp ∈ s.library_papers.filter (fun lp2 => lp2.library_id == library_id) :=
        List.mem_filter.mpr ⟨hlp0, beq_iff_eq.mpr hlib⟩
      have hne : ¬(s.library_papers.filter (fun lp2 => lp2.library_id == library_id)).isEmpty
          = true := by
        intro hrm
        rw [List.isEmpty_iff.mp hrm] at hlpmem
        exact absurd hlpmem (List.not_mem_nil lp)
      rw [if_neg hne]
      refine ⟨e, List.mem_flatMap.mpr ⟨lp, hlpmem, List.mem_filter.mpr ⟨hlatest, ?_⟩⟩⟩
      rcases hpred with h | ⟨a, ha, hca⟩
      · exact Bool.or_eq_true_iff.mpr (Or.inl (decide_eq_true h))
      · rw [ha]
        exact Bool.or_eq_true_iff.mpr (Or.inr (decide_eq_true hca))

end Modular
